import Mathlib

/-!
Shallow embedding of the webrtc-rtmp bridge (src/main.py and
src/peerjs_client.py).

The receiver's mutable state (`WebRTCReceiver.__init__`) is modelled by the
structure `Receiver`; each method that mutates it becomes a pure function
from the old state to the new state together with the list of responses it
sends over the data channel (`send_response` calls, assuming the channel is
open).  External effects of the `aiortc` `MediaRecorder` are abstracted by an
environment `env : String → Bool` telling, per destination URL, whether
creating/starting the recorder succeeds; everything else is translated
directly from the Python source.
-/

set_option maxHeartbeats 1000000

namespace WebrtcRtmp

/-- JSON scalar values appearing in the data-channel responses built by
`main.py` (strings, booleans, naturals and lists of URL strings). -/
inductive JVal where
  | s (v : String)
  | b (v : Bool)
  | n (v : Nat)
  | arr (v : List String)
  deriving DecidableEq, Repr

/-- A response sent through `send_response`: the Python dict literal, kept as
an ordered key/value list. -/
abbrev Response := List (String × JVal)

/-- One inbound media track (`aiortc` track), identified by its kind and an
id, matching the fields `main.py` reads (`track.kind`, `track.id`). -/
structure Track where
  kind : String
  tid : Nat
  deriving DecidableEq, Repr

/-- The mutable state of `WebRTCReceiver` (`main.py` lines 15-23): the RTMP
URL list, the recorder mapping (modelled by its key list, since recorder
handles are opaque), the active track list and the recording flag. -/
structure Receiver where
  rtmp_urls : List String
  recorders : List String
  tracks : List Track
  recording_started : Bool
  deriving DecidableEq, Repr

/-- `WebRTCReceiver.__init__(rtmp_url)`: `[rtmp_url] if rtmp_url else []`
(`None` and the empty string are falsy). -/
def initReceiver (rtmp_url : Option String) : Receiver :=
  { rtmp_urls := match rtmp_url with
      | some u => if u = "" then [] else [u]
      | none => []
    recorders := []
    tracks := []
    recording_started := false }

/-- Characters stripped by Python `str.strip()` (ASCII whitespace). -/
def pySpace (c : Char) : Bool :=
  c == ' ' || c == '\t' || c == '\n' || c == '\r' || c == '\x0b' || c == '\x0c'

/-- `str.strip()` on the underlying character list: drop whitespace from both
ends. -/
def stripChars (cs : List Char) : List Char :=
  ((cs.dropWhile pySpace).reverse.dropWhile pySpace).reverse

/-- Python `url.strip()`. -/
def pyStrip (s : String) : String :=
  String.mk (stripChars s.data)

/-- `s.startswith(pat)` on character lists. -/
def listStartsWith : List Char → List Char → Bool
  | _, [] => true
  | [], _ :: _ => false
  | c :: cs, p :: ps => c == p && listStartsWith cs ps

/-- Python `url.startswith(pat)`. -/
def strStartsWith (s pat : String) : Bool :=
  listStartsWith s.data pat.data

/-- The error response dict `{"status": "error", "message": msg}`. -/
def errResp (msg : String) : Response :=
  [("status", JVal.s "error"), ("message", JVal.s msg)]

/-- The success response dict `{"status": "ok", "message": msg}`. -/
def okMsgResp (msg : String) : Response :=
  [("status", JVal.s "ok"), ("message", JVal.s msg)]

/-- Dict lookup on a response (`response.get(key)`). -/
def rLookup (k : String) : Response → Option JVal
  | [] => none
  | (k', v) :: rest => if k' = k then some v else rLookup k rest

/-- A response whose `status` field is `"error"`. -/
def respIsErr : Response → Bool
  | ("status", JVal.s st) :: _ => st == "error"
  | _ => false

/-- `WebRTCReceiver._start_recorder(url)` (`main.py` lines 173-227): validate
the `rtmp://` scheme (a `ValueError` there is caught by the generic handler),
create and start the `MediaRecorder` (failure modelled by `env url = false`,
reported as the `FileNotFoundError` message), refuse to record when no track
is available, and on success add the URL to the recorder mapping and report
success.  Every path sends exactly one response and never raises. -/
def startRecorder (env : String → Bool) (s : Receiver) (url : String) :
    Receiver × List Response :=
  if !(strStartsWith url "rtmp://") then
    (s, [errResp ("Failed to start " ++ url ++ ": Invalid RTMP URL format: " ++ url)])
  else if !(env url) then
    (s, [errResp ("Cannot connect to RTMP server at " ++ url ++
        ". Make sure the server is running and accessible.")])
  else if s.tracks.isEmpty then
    (s, [errResp "No media tracks available"])
  else
    ({ s with recorders :=
        if url ∈ s.recorders then s.recorders else s.recorders ++ [url] },
     [okMsgResp ("Recording started to " ++ url)])

/-- `WebRTCReceiver.add_rtmp_url(url)` (`main.py` lines 146-155): strip the
URL, append it if absent, and if recording is active with at least one track,
immediately start a recorder for it. -/
def addRtmpUrl (env : String → Bool) (s : Receiver) (url : String) :
    Receiver × List Response :=
  let v := pyStrip url
  if v ∈ s.rtmp_urls then (s, [])
  else
    let s1 := { s with rtmp_urls := s.rtmp_urls ++ [v] }
    if s1.recording_started && !s1.tracks.isEmpty then startRecorder env s1 v
    else (s1, [])

/-- `WebRTCReceiver.remove_rtmp_url(url)` (`main.py` lines 157-171): if the
URL is present, remove it from the list and, after a best-effort stop whose
failure is only logged, delete its recorder entry. -/
def removeRtmpUrl (s : Receiver) (url : String) : Receiver :=
  if url ∈ s.rtmp_urls then
    { s with rtmp_urls := s.rtmp_urls.erase url,
             recorders := s.recorders.erase url }
  else s

/-- One start attempt inside `start_recording`'s `asyncio.gather`: run
`_start_recorder` on the current state and append its responses. -/
def startStep (env : String → Bool) (acc : Receiver × List Response)
    (url : String) : Receiver × List Response :=
  let q := startRecorder env acc.1 url
  (q.1, acc.2 ++ q.2)

/-- `WebRTCReceiver.start_recording()` (`main.py` lines 229-246): no-op when
the URL list is empty or recording already started; otherwise run
`_start_recorder` for every URL (the `asyncio.gather` of independent tasks is
linearised in list order) and finally set the recording flag. -/
def startRecording (env : String → Bool) (s : Receiver) :
    Receiver × List Response :=
  if s.rtmp_urls.isEmpty then (s, [])
  else if s.recording_started then (s, [])
  else
    let p := s.rtmp_urls.foldl (startStep env) (s, ([] : List Response))
    ({ p.1 with recording_started := true }, p.2)

/-- `WebRTCReceiver.stop_recording()` (`main.py` lines 248-266): no-op when
not recording; otherwise stop every recorder (each stop isolated, failures
only logged, no responses), clear the mapping and clear the flag. -/
def stopRecording (s : Receiver) : Receiver × List Response :=
  if !s.recording_started then (s, [])
  else ({ s with recorders := [], recording_started := false }, [])

/-- The status payload sent for the `status` action (`main.py` lines
122-129). -/
def statusResp (s : Receiver) : Response :=
  [("status", JVal.s "ok"), ("recording", JVal.b s.recording_started),
   ("urls", JVal.arr s.rtmp_urls), ("tracks", JVal.n s.tracks.length),
   ("active_recorders", JVal.n s.recorders.length)]

/-- A data-channel message as seen by `handle_command`: either text that
fails `json.loads` (`invalid`), or a parsed command with its optional
`action` and `url` fields (`cmd.get("action")`, `cmd.get("url")`). -/
inductive InMessage where
  | invalid (raw : String)
  | parsed (action : Option String) (url : Option String)
  deriving DecidableEq, Repr

/-- Python `f"Unknown action: {action}"` rendering of the `action` field
(`None` prints as `None`). -/
def showAction : Option String → String
  | some a => a
  | none => "None"

/-- `WebRTCReceiver.handle_command(message)` (`main.py` lines 85-138): parse
failure answers `Invalid JSON`; recognized actions dispatch to the recording
operations (the `start` and `add_url` paths first emit the per-destination
responses of `_start_recorder`, then the final acknowledgement); a missing or
empty `url` argument is falsy and answers `URL required`; anything else
answers `Unknown action: ...`. -/
def handleCommand (env : String → Bool) (s : Receiver) :
    InMessage → Receiver × List Response
  | .invalid _ => (s, [errResp "Invalid JSON"])
  | .parsed action url =>
    if action = some "start" then
      let p := startRecording env s
      (p.1, p.2 ++ [[("status", JVal.s "ok"), ("action", JVal.s "start"),
                     ("urls", JVal.arr p.1.rtmp_urls)]])
    else if action = some "stop" then
      let p := stopRecording s
      (p.1, p.2 ++ [[("status", JVal.s "ok"), ("action", JVal.s "stop")]])
    else if action = some "add_url" then
      match url with
      | some u =>
        if u = "" then (s, [errResp "URL required"])
        else
          let v := pyStrip u
          let p := addRtmpUrl env s v
          (p.1, p.2 ++ [[("status", JVal.s "ok"), ("action", JVal.s "add_url"),
                         ("url", JVal.s v)]])
      | none => (s, [errResp "URL required"])
    else if action = some "remove_url" then
      match url with
      | some u =>
        if u = "" then (s, [errResp "URL required"])
        else
          let v := pyStrip u
          (removeRtmpUrl s v,
           [[("status", JVal.s "ok"), ("action", JVal.s "remove_url"),
             ("url", JVal.s v)]])
      | none => (s, [errResp "URL required"])
    else if action = some "list_urls" then
      (s, [[("status", JVal.s "ok"), ("urls", JVal.arr s.rtmp_urls)]])
    else if action = some "status" then
      (s, [statusResp s])
    else
      (s, [errResp ("Unknown action: " ++ showAction action)])

/-- The commands whose handling may emit more than the final acknowledgement:
`start` and `add_url` can trigger `_start_recorder`, which sends its own
per-destination response. -/
def multiRespCmd : InMessage → Bool
  | .parsed a _ => a == some "start" || a == some "add_url"
  | .invalid _ => false

/-- The six actions recognized by `handle_command`. -/
def recognizedAction (a : Option String) : Bool :=
  a == some "start" || a == some "stop" || a == some "add_url" ||
  a == some "remove_url" || a == some "list_urls" || a == some "status"

/-- The `on_track` handler (`main.py` lines 37-54): append the track, notify
the frontend, and (recorder handles being opaque) leave the recorder mapping
unchanged even when tracks are forwarded to live recorders. -/
def onTrack (s : Receiver) (t : Track) : Receiver × List Response :=
  let s1 := { s with tracks := s.tracks ++ [t] }
  (s1, [[("status", JVal.s "ok"),
         ("message", JVal.s ("Receiving " ++ t.kind ++ " track")),
         ("tracks", JVal.n s1.tracks.length)]])

/-- The `on_ended` handler (`main.py` lines 56-65): remove the track if
present; if the active set became empty, stop all recording. -/
def onEnded (s : Receiver) (t : Track) : Receiver × List Response :=
  let s1 := if t ∈ s.tracks then { s with tracks := s.tracks.erase t } else s
  if s1.tracks.length = 0 then stopRecording s1 else (s1, [])

/-- One operation of the receiver, used to enumerate reachable states: a
data-channel command, a direct URL mutation, a recording start/stop, or a
track arrival/end event. -/
inductive ROp where
  | msg (m : InMessage)
  | addUrl (u : String)
  | removeUrl (u : String)
  | startRec
  | stopRec
  | trackAdd (t : Track)
  | trackEnd (t : Track)
  deriving Repr

/-- The state part of applying one receiver operation. -/
def applyROp (env : String → Bool) (s : Receiver) : ROp → Receiver
  | .msg m => (handleCommand env s m).1
  | .addUrl u => (addRtmpUrl env s u).1
  | .removeUrl u => removeRtmpUrl s u
  | .startRec => (startRecording env s).1
  | .stopRec => (stopRecording s).1
  | .trackAdd t => (onTrack s t).1
  | .trackEnd t => (onEnded s t).1

/-- Replay of a sequence of receiver operations. -/
def applyROps (env : String → Bool) (s : Receiver) (ops : List ROp) : Receiver :=
  ops.foldl (applyROp env) s

/-- The state invariant of the receiver: the URL list has no duplicates, the
recorder mapping's keys are unique (it is a Python dict) and every key is a
configured URL. -/
def RInv (s : Receiver) : Prop :=
  s.rtmp_urls.Nodup ∧ s.recorders.Nodup ∧ ∀ u ∈ s.recorders, u ∈ s.rtmp_urls

instance : DecidablePred RInv := fun s => by
  unfold RInv; infer_instance

/-- An `add_url`/`remove_url` call as replayed against the destination set. -/
inductive UrlOp where
  | add (u : String)
  | rem (u : String)
  deriving DecidableEq, Repr

/-- The per-address key an operation acts on: `add_rtmp_url` strips its
argument before inserting; `remove_rtmp_url` removes the argument as given. -/
def keyOf : UrlOp → String
  | .add u => pyStrip u
  | .rem u => u

/-- Whether the operation is an add. -/
def isAddOp : UrlOp → Bool
  | .add _ => true
  | .rem _ => false

/-- The state part of one `add_rtmp_url`/`remove_rtmp_url` call. -/
def applyUrlOp (env : String → Bool) (s : Receiver) : UrlOp → Receiver
  | .add u => (addRtmpUrl env s u).1
  | .rem u => removeRtmpUrl s u

/-- Replay of a sequence of URL operations. -/
def applyUrlOps (env : String → Bool) (s : Receiver) (ops : List UrlOp) : Receiver :=
  ops.foldl (applyUrlOp env) s

/-- Keep, for each address, only the last operation acting on it. -/
def lastWins : List UrlOp → List UrlOp
  | [] => []
  | op :: rest =>
    if rest.any (fun o => keyOf o == keyOf op) then lastWins rest
    else op :: lastWins rest

/-- Whether address `x` is present after replaying `ops` from a state where
its presence is `p`: each operation on key `x` overwrites, every other
operation is ignored. -/
def memAfter (x : String) : Prop → List UrlOp → Prop
  | p, [] => p
  | p, op :: rest => memAfter x (if x = keyOf op then isAddOp op = true else p) rest

/-- A value of the PeerJS signaling protocol JSON (`peerjs_client.py`):
enough structure for envelope payloads. -/
inductive PJson where
  | str (v : String)
  | obj (kvs : List (String × PJson))

/-- `dict.get(key)` on a PeerJS JSON object body. -/
def jLookup (k : String) : List (String × PJson) → Option PJson
  | [] => none
  | (k', v) :: rest => if k' = k then some v else jLookup k rest

/-- Python truthiness of a JSON value (empty string and empty dict are
falsy). -/
def pjTruthy : PJson → Bool
  | .str s => !(s == "")
  | .obj kvs => !kvs.isEmpty

/-- The OFFER branch of `PeerJSClient._handle_message` (`peerjs_client.py`
lines 72-79): read `payload.get("sdp")` and, when it is truthy and an offer
handler is registered, return the argument pair `(sdp, data.get("src"))`
passed to the handler; otherwise no call happens (`none`). -/
def handleMessageOffer (payload : List (String × PJson)) (src : Option String)
    (registered : Bool) : Option (PJson × Option String) :=
  match jLookup "sdp" payload with
  | some sdp => if pjTruthy sdp && registered then some (sdp, src) else none
  | none => none

/-- `PeerJSClient.send_answer(answer_sdp, dst_peer_id)` (`peerjs_client.py`
lines 106-117): the serialized ANSWER envelope, whose payload carries exactly
`sdp` and `type`. -/
def sendAnswer (answer_sdp : PJson) (dst_peer_id : String) :
    List (String × PJson) :=
  [("type", PJson.str "ANSWER"), ("dst", PJson.str dst_peer_id),
   ("payload", PJson.obj [("sdp", answer_sdp), ("type", PJson.str "answer")])]

/-- The keys of the `payload` object of an envelope (empty when the payload
is missing or not an object). -/
def payloadKeys (envelope : List (String × PJson)) : List String :=
  match jLookup "payload" envelope with
  | some (.obj kvs) => kvs.map Prod.fst
  | _ => []

/-! ### Basic facts about `_start_recorder` and `start_recording` -/

theorem startRecorder_cases (env : String → Bool) (s : Receiver) (u : String) :
    (startRecorder env s u).1 = s ∨
      (u ∉ s.recorders ∧
        (startRecorder env s u).1 = { s with recorders := s.recorders ++ [u] }) := by
  unfold startRecorder
  split
  · exact Or.inl rfl
  split
  · exact Or.inl rfl
  split
  · exact Or.inl rfl
  · by_cases h : u ∈ s.recorders
    · exact Or.inl (by simp [h])
    · exact Or.inr ⟨h, by simp [h]⟩

theorem startRecorder_urls (env : String → Bool) (s : Receiver) (u : String) :
    (startRecorder env s u).1.rtmp_urls = s.rtmp_urls := by
  rcases startRecorder_cases env s u with h | ⟨_, h⟩ <;> rw [h]

theorem startRecorder_tracks (env : String → Bool) (s : Receiver) (u : String) :
    (startRecorder env s u).1.tracks = s.tracks := by
  rcases startRecorder_cases env s u with h | ⟨_, h⟩ <;> rw [h]

theorem startRecorder_flag (env : String → Bool) (s : Receiver) (u : String) :
    (startRecorder env s u).1.recording_started = s.recording_started := by
  rcases startRecorder_cases env s u with h | ⟨_, h⟩ <;> rw [h]

theorem foldStart_urls (env : String → Bool) :
    ∀ (l : List String) (acc : Receiver × List Response),
      (l.foldl (startStep env) acc).1.rtmp_urls = acc.1.rtmp_urls := by
  intro l
  induction l with
  | nil => intro acc; rfl
  | cons u rest ih =>
    intro acc
    rw [List.foldl_cons, ih]
    simp [startStep, startRecorder_urls]

theorem foldStart_tracks (env : String → Bool) :
    ∀ (l : List String) (acc : Receiver × List Response),
      (l.foldl (startStep env) acc).1.tracks = acc.1.tracks := by
  intro l
  induction l with
  | nil => intro acc; rfl
  | cons u rest ih =>
    intro acc
    rw [List.foldl_cons, ih]
    simp [startStep, startRecorder_tracks]

theorem startRecording_urls (env : String → Bool) (s : Receiver) :
    (startRecording env s).1.rtmp_urls = s.rtmp_urls := by
  unfold startRecording
  split
  · rfl
  split
  · rfl
  · simp [foldStart_urls]

theorem startRecording_flag (env : String → Bool) (s : Receiver)
    (h : ¬ s.rtmp_urls.isEmpty) :
    (startRecording env s).1.recording_started = true := by
  unfold startRecording
  split
  · exact absurd ‹_› h
  split
  · assumption
  · rfl

/-! ### The claims -/

/-- C1: contrary to the claim (and to `main.py`'s own comment "Send answer
with connectionId preserved for PeerJS routing"), the `connectionId` of an
inbound OFFER never reaches the outbound ANSWER.  At the concrete failing
input — an OFFER whose payload carries `connectionId "abc123"` — the receive
loop hands the offer handler only `payload.sdp` (first conjunct), that value
contains no `connectionId` for `handle_offer` to extract (third conjunct),
and the envelope built by `send_answer` has a payload whose keys are exactly
`sdp` and `type`, never `connectionId` (second conjunct).  (`handle_offer`
moreover passes three arguments to the two-parameter `send_answer`, a
`TypeError` at runtime.) -/
theorem C1_connectionId_dropped :
    handleMessageOffer
        [("sdp", PJson.obj [("type", PJson.str "offer"), ("sdp", PJson.str "v=0 offer")]),
         ("connectionId", PJson.str "abc123")]
        (some "peerA") true
      = some (PJson.obj [("type", PJson.str "offer"), ("sdp", PJson.str "v=0 offer")],
              some "peerA")
    ∧ jLookup "connectionId"
        [("type", PJson.str "offer"), ("sdp", PJson.str "v=0 offer")] = none
    ∧ payloadKeys
        (sendAnswer (PJson.obj [("type", PJson.str "answer"), ("sdp", PJson.str "v=0 answer")])
          "peerA")
      = ["sdp", "type"] :=
  ⟨rfl, rfl, rfl⟩

/-- C3 counterexample: for an OFFER envelope whose payload is
`{"sdp": "v=0 offer", "connectionId": "abc123"}` with a registered offer
handler, the handler is not invoked with the payload object — it receives
`payload.sdp` instead. -/
theorem C3_counterexample :
    handleMessageOffer
        [("sdp", PJson.str "v=0 offer"), ("connectionId", PJson.str "abc123")]
        (some "peerA") true
      ≠ some (PJson.obj [("sdp", PJson.str "v=0 offer"),
                         ("connectionId", PJson.str "abc123")],
              some "peerA") := by
  intro h
  have h' : some ((PJson.str "v=0 offer"), some "peerA")
      = some (PJson.obj [("sdp", PJson.str "v=0 offer"),
                         ("connectionId", PJson.str "abc123")], some "peerA") := h
  exact PJson.noConfusion (congrArg Prod.fst (Option.some.inj h'))

/-- C3 amended: for every inbound OFFER envelope whose payload has a truthy
`sdp` member and a registered offer handler, the receive loop invokes the
handler with the pair `(payload.sdp, srcAddress)` — the `sdp` member of the
payload, not the payload object itself. -/
theorem C3_offer_handler_receives_sdp
    (payload : List (String × PJson)) (src : Option String) (sdp : PJson)
    (h1 : jLookup "sdp" payload = some sdp) (h2 : pjTruthy sdp = true) :
    handleMessageOffer payload src true = some (sdp, src) := by
  simp [handleMessageOffer, h1, h2]

/-- C3 witness: a concrete OFFER envelope on which the amended claim fires. -/
theorem C3_offer_handler_receives_sdp_witness :
    handleMessageOffer
        [("sdp", PJson.str "v=0 offer"), ("connectionId", PJson.str "abc123")]
        (some "peerA") true
      = some (PJson.str "v=0 offer", some "peerA") :=
  C3_offer_handler_receives_sdp _ _ _ rfl rfl

/-- C8 counterexample: a receiver constructed with a default RTMP URL
(`--rtmp-url rtmp://a/x`) and no media yet does not return the claimed
response — its `urls` field is `["rtmp://a/x"]`, not `[]`. -/
theorem C8_counterexample :
    (handleCommand (fun _ => true) (initReceiver (some "rtmp://a/x"))
        (.parsed (some "status") none)).2
      ≠ [[("status", JVal.s "ok"), ("recording", JVal.b false),
          ("urls", JVal.arr []), ("tracks", JVal.n 0),
          ("active_recorders", JVal.n 0)]] := by
  decide

/-- C8 amended: a receiver constructed without an initial RTMP URL, before
any media has arrived and before any url-mutating command, answers the
`status` command with exactly
`{"status":"ok","recording":false,"urls":[],"tracks":0,"active_recorders":0}`
and leaves the state unchanged. -/
theorem C8_initial_status_response (env : String → Bool) :
    handleCommand env (initReceiver none) (.parsed (some "status") none)
      = (initReceiver none,
         [[("status", JVal.s "ok"), ("recording", JVal.b false),
           ("urls", JVal.arr []), ("tracks", JVal.n 0),
           ("active_recorders", JVal.n 0)]]) :=
  rfl

theorem stopRecording_snd (s : Receiver) : (stopRecording s).2 = [] := by
  unfold stopRecording
  split <;> rfl

theorem respIsErr_okMsg (m : String) : respIsErr (okMsgResp m) = false := rfl

theorem respIsErr_err (m : String) : respIsErr (errResp m) = true := rfl

theorem handleCommand_status (env : String → Bool) (s : Receiver) :
    handleCommand env s (.parsed (some "status") none) = (s, [statusResp s]) :=
  rfl

/-- C2 counterexample: in a receiver with one configured destination and one
active track, the single command `{"action":"start"}` produces two responses
(the per-destination success from `_start_recorder` and the final
acknowledgement from `handle_command`), not exactly one. -/
theorem C2_counterexample :
    ((handleCommand (fun _ => true)
        ⟨["rtmp://a/x"], [], [⟨"video", 0⟩], false⟩
        (.parsed (some "start") none)).2.length = 2) ∧
    ¬ ((handleCommand (fun _ => true)
        ⟨["rtmp://a/x"], [], [⟨"video", 0⟩], false⟩
        (.parsed (some "start") none)).2.length = 1) := by
  decide

/-- C2 amended: every command message produces at least one response, and
every command other than `start` and `add_url` produces exactly one; `start`
additionally emits one per-destination response for every start attempt, and
`add_url` may emit one extra response when recording is active with tracks. -/
theorem C2_at_least_one_response (env : String → Bool) (s : Receiver)
    (m : InMessage) :
    1 ≤ (handleCommand env s m).2.length ∧
    (multiRespCmd m = false → (handleCommand env s m).2.length = 1) := by
  refine ⟨?_, ?_⟩
  · cases m with
    | invalid raw => simp [handleCommand]
    | parsed a u =>
      simp only [handleCommand]
      repeat' split
      all_goals simp only [List.length_append, List.length_cons,
        List.length_nil]
      all_goals omega
  · intro hm
    cases m with
    | invalid raw => simp [handleCommand]
    | parsed a u =>
      have h' : ¬ a = some "start" ∧ ¬ a = some "add_url" := by
        simpa [multiRespCmd] using hm
      simp only [handleCommand, if_neg h'.1, if_neg h'.2]
      repeat' split
      all_goals simp [stopRecording_snd]

/-- C2 witness: a `status` command (not `start`/`add_url`) yields exactly one
response. -/
theorem C2_at_least_one_response_witness :
    (handleCommand (fun _ => true) (initReceiver none)
        (.parsed (some "status") none)).2.length = 1 :=
  (C2_at_least_one_response (fun _ => true) (initReceiver none)
      (.parsed (some "status") none)).2 rfl

/-- C4: with destinations `[a, b]`, one active track, `a` reachable and `b`
unreachable (its recorder cannot be created), `start_recording` leaves `a`
ACTIVE in the recorder mapping, leaves `b` absent, emits exactly one error
response — the `FileNotFoundError` message naming `b` — reports success for
`a`, and (being a total function composed of guarded branches) never raises. -/
theorem C4_partial_failure_isolated (a b : String) (t : Track)
    (env : String → Bool) (hab : a ≠ b)
    (ha : strStartsWith a "rtmp://" = true)
    (hb : strStartsWith b "rtmp://" = true)
    (ea : env a = true) (eb : env b = false) :
    (startRecording env ⟨[a, b], [], [t], false⟩).1.recorders = [a] ∧
    b ∉ (startRecording env ⟨[a, b], [], [t], false⟩).1.recorders ∧
    (startRecording env ⟨[a, b], [], [t], false⟩).1.recording_started = true ∧
    (startRecording env ⟨[a, b], [], [t], false⟩).2
      = [okMsgResp ("Recording started to " ++ a),
         errResp ("Cannot connect to RTMP server at " ++ b ++
           ". Make sure the server is running and accessible.")] ∧
    ((startRecording env ⟨[a, b], [], [t], false⟩).2.filter respIsErr)
      = [errResp ("Cannot connect to RTMP server at " ++ b ++
           ". Make sure the server is running and accessible.")] := by
  have key : startRecording env ⟨[a, b], [], [t], false⟩
      = (⟨[a, b], [a], [t], true⟩,
         [okMsgResp ("Recording started to " ++ a),
          errResp ("Cannot connect to RTMP server at " ++ b ++
            ". Make sure the server is running and accessible.")]) := by
    simp [startRecording, startStep, startRecorder, ha, hb, ea, eb]
  rw [key]
  refine ⟨rfl, ?_, rfl, rfl, ?_⟩
  · simp [Ne.symm hab]
  · simp [List.filter_cons, respIsErr_okMsg, respIsErr_err]

/-- C4 witness: the spec's own example, `rtmp://a/x` reachable and
`rtmp://b/y` unreachable. -/
theorem C4_partial_failure_isolated_witness :
    (startRecording (fun u => u == "rtmp://a/x")
        ⟨["rtmp://a/x", "rtmp://b/y"], [], [⟨"video", 0⟩], false⟩).1.recorders
      = ["rtmp://a/x"] ∧
    "rtmp://b/y" ∉ (startRecording (fun u => u == "rtmp://a/x")
        ⟨["rtmp://a/x", "rtmp://b/y"], [], [⟨"video", 0⟩], false⟩).1.recorders ∧
    (startRecording (fun u => u == "rtmp://a/x")
        ⟨["rtmp://a/x", "rtmp://b/y"], [], [⟨"video", 0⟩],
          false⟩).1.recording_started = true ∧
    (startRecording (fun u => u == "rtmp://a/x")
        ⟨["rtmp://a/x", "rtmp://b/y"], [], [⟨"video", 0⟩], false⟩).2
      = [okMsgResp ("Recording started to " ++ "rtmp://a/x"),
         errResp ("Cannot connect to RTMP server at " ++ "rtmp://b/y" ++
           ". Make sure the server is running and accessible.")] ∧
    ((startRecording (fun u => u == "rtmp://a/x")
        ⟨["rtmp://a/x", "rtmp://b/y"], [], [⟨"video", 0⟩],
          false⟩).2.filter respIsErr)
      = [errResp ("Cannot connect to RTMP server at " ++ "rtmp://b/y" ++
           ". Make sure the server is running and accessible.")] :=
  C4_partial_failure_isolated "rtmp://a/x" "rtmp://b/y" ⟨"video", 0⟩
    (fun u => u == "rtmp://a/x") (by decide) (by decide) (by decide) rfl rfl

/-- C5: from any state with at least one destination, at least one active
track (and at least one reachable destination), `start_recording` followed by
`stop_recording` leaves the URL list exactly as before, empties the recorder
mapping (every destination back to ABSENT) and clears the recording flag. -/
theorem C5_start_stop_roundtrip (env : String → Bool) (s : Receiver)
    (h1 : s.rtmp_urls ≠ []) (_h2 : s.tracks ≠ [])
    (_h3 : ∃ u ∈ s.rtmp_urls, strStartsWith u "rtmp://" = true ∧ env u = true) :
    (stopRecording (startRecording env s).1).1.rtmp_urls = s.rtmp_urls ∧
    (stopRecording (startRecording env s).1).1.recorders = [] ∧
    (stopRecording (startRecording env s).1).1.recording_started = false := by
  have hflag : (startRecording env s).1.recording_started = true :=
    startRecording_flag env s (by simpa using h1)
  have hurls := startRecording_urls env s
  simp [stopRecording, hflag, hurls]

/-- C5 witness: one reachable destination and one track. -/
theorem C5_start_stop_roundtrip_witness :
    (stopRecording (startRecording (fun _ => true)
        ⟨["rtmp://a/x"], [], [⟨"video", 0⟩], false⟩).1).1.rtmp_urls
      = ["rtmp://a/x"] ∧
    (stopRecording (startRecording (fun _ => true)
        ⟨["rtmp://a/x"], [], [⟨"video", 0⟩], false⟩).1).1.recorders = [] ∧
    (stopRecording (startRecording (fun _ => true)
        ⟨["rtmp://a/x"], [], [⟨"video", 0⟩],
          false⟩).1).1.recording_started = false :=
  C5_start_stop_roundtrip (fun _ => true)
    ⟨["rtmp://a/x"], [], [⟨"video", 0⟩], false⟩
    (by decide) (by decide) ⟨"rtmp://a/x", by decide, rfl, rfl⟩

/-- C7: a track-ended event that empties the active track set while recording
is active stops all recorders and clears the recording flag, so a subsequent
`status` command reports `recording: false` (with zero tracks and zero active
recorders); and when the removal leaves the track set nonempty, no automatic
stop happens — flag and recorder mapping are untouched. -/
theorem C7_track_end_auto_stop (env : String → Bool) (s : Receiver) (t : Track)
    (hrec : s.recording_started = true) (hmem : t ∈ s.tracks) :
    (s.tracks.erase t = [] →
      ((onEnded s t).1.recording_started = false ∧
       (onEnded s t).1.recorders = [] ∧
       (handleCommand env (onEnded s t).1 (.parsed (some "status") none)).2
         = [[("status", JVal.s "ok"), ("recording", JVal.b false),
             ("urls", JVal.arr s.rtmp_urls), ("tracks", JVal.n 0),
             ("active_recorders", JVal.n 0)]])) ∧
    (s.tracks.erase t ≠ [] →
      ((onEnded s t).1.recording_started = true ∧
       (onEnded s t).1.recorders = s.recorders)) := by
  constructor
  · intro hempty
    have key : onEnded s t
        = ({ s with
              tracks := s.tracks.erase t,
              recorders := [],
              recording_started := false }, []) := by
      simp [onEnded, stopRecording, hmem, hempty, hrec]
    rw [key]
    refine ⟨rfl, rfl, ?_⟩
    rw [handleCommand_status]
    simp [statusResp, hempty]
  · intro hne
    have key : onEnded s t = ({ s with tracks := s.tracks.erase t }, []) := by
      simp only [onEnded]
      rw [if_pos hmem]
      split
      · next h0 =>
        exact absurd (List.length_eq_zero.mp (by simpa using h0)) hne
      · rfl
    rw [key]
    exact ⟨hrec, rfl⟩

/-- C7 witness: recording to one destination with one track; that track
ends. -/
theorem C7_track_end_auto_stop_witness :
    (onEnded ⟨["rtmp://a/x"], ["rtmp://a/x"], [⟨"video", 0⟩], true⟩
        ⟨"video", 0⟩).1.recording_started = false ∧
    (onEnded ⟨["rtmp://a/x"], ["rtmp://a/x"], [⟨"video", 0⟩], true⟩
        ⟨"video", 0⟩).1.recorders = [] ∧
    (handleCommand (fun _ => true)
        (onEnded ⟨["rtmp://a/x"], ["rtmp://a/x"], [⟨"video", 0⟩], true⟩
          ⟨"video", 0⟩).1
        (.parsed (some "status") none)).2
      = [[("status", JVal.s "ok"), ("recording", JVal.b false),
          ("urls", JVal.arr ["rtmp://a/x"]), ("tracks", JVal.n 0),
          ("active_recorders", JVal.n 0)]] :=
  (C7_track_end_auto_stop (fun _ => true)
      ⟨["rtmp://a/x"], ["rtmp://a/x"], [⟨"video", 0⟩], true⟩
      ⟨"video", 0⟩ rfl (by decide)).1 (by decide)

/-- C9: a parsed command whose action is not one of the six recognized ones
is answered with a structured error naming the action, and a message that is
not valid JSON is answered with the `Invalid JSON` error; in both cases the
state is unchanged (the handler neither raises nor closes the channel, so
subsequent commands behave exactly as before). -/
theorem C9_unknown_action_and_invalid_json (env : String → Bool) (s : Receiver)
    (a : Option String) (u : Option String) (raw : String)
    (h : recognizedAction a = false) :
    handleCommand env s (.parsed a u)
      = (s, [errResp ("Unknown action: " ++ showAction a)]) ∧
    handleCommand env s (.invalid raw) = (s, [errResp "Invalid JSON"]) := by
  have h' : ¬ a = some "start" ∧ ¬ a = some "stop" ∧ ¬ a = some "add_url" ∧
      ¬ a = some "remove_url" ∧ ¬ a = some "list_urls" ∧
      ¬ a = some "status" := by
    simpa [recognizedAction, and_assoc] using h
  obtain ⟨h1, h2, h3, h4, h5, h6⟩ := h'
  refine ⟨?_, rfl⟩
  simp only [handleCommand, if_neg h1, if_neg h2, if_neg h3, if_neg h4,
    if_neg h5, if_neg h6]

/-- C9 witness: the unrecognized action `frobnicate` and a non-JSON text. -/
theorem C9_unknown_action_and_invalid_json_witness :
    handleCommand (fun _ => true) (initReceiver none)
        (.parsed (some "frobnicate") none)
      = (initReceiver none, [errResp ("Unknown action: " ++ "frobnicate")]) ∧
    handleCommand (fun _ => true) (initReceiver none) (.invalid "not json")
      = (initReceiver none, [errResp "Invalid JSON"]) :=
  C9_unknown_action_and_invalid_json (fun _ => true) (initReceiver none)
    (some "frobnicate") none "not json" (by decide)

/-! ### Membership characterisation of the URL operations (for C6) -/

theorem addRtmpUrl_urls (env : String → Bool) (s : Receiver) (u : String) :
    (addRtmpUrl env s u).1.rtmp_urls =
      if pyStrip u ∈ s.rtmp_urls then s.rtmp_urls
      else s.rtmp_urls ++ [pyStrip u] := by
  simp only [addRtmpUrl]
  split
  · rfl
  · split
    · rw [startRecorder_urls]
    · rfl

theorem removeRtmpUrl_urls (s : Receiver) (u : String) :
    (removeRtmpUrl s u).rtmp_urls = s.rtmp_urls.erase u := by
  unfold removeRtmpUrl
  split
  · rfl
  · next h => exact (List.erase_of_not_mem h).symm

theorem addRtmpUrl_nodup (env : String → Bool) (s : Receiver) (u : String)
    (h : s.rtmp_urls.Nodup) : (addRtmpUrl env s u).1.rtmp_urls.Nodup := by
  rw [addRtmpUrl_urls]
  split
  · exact h
  · next hv => simp [List.nodup_append, h, hv]

theorem applyUrlOp_nodup (env : String → Bool) (s : Receiver) (op : UrlOp)
    (h : s.rtmp_urls.Nodup) : (applyUrlOp env s op).rtmp_urls.Nodup := by
  cases op with
  | add u => exact addRtmpUrl_nodup env s u h
  | rem u => rw [applyUrlOp, removeRtmpUrl_urls]; exact h.erase u

theorem mem_applyUrlOp (env : String → Bool) (s : Receiver) (op : UrlOp)
    (x : String) (hnd : s.rtmp_urls.Nodup) :
    (x ∈ (applyUrlOp env s op).rtmp_urls) ↔
      (if x = keyOf op then isAddOp op = true else x ∈ s.rtmp_urls) := by
  cases op with
  | add u =>
    have hurls : (applyUrlOp env s (UrlOp.add u)).rtmp_urls =
        if pyStrip u ∈ s.rtmp_urls then s.rtmp_urls
        else s.rtmp_urls ++ [pyStrip u] := addRtmpUrl_urls env s u
    rw [hurls]
    simp only [keyOf, isAddOp]
    by_cases hx : x = pyStrip u
    · rw [if_pos hx]
      refine iff_of_true ?_ (by trivial)
      subst hx
      split
      · next hc => exact hc
      · exact List.mem_append.mpr (Or.inr (by simp))
    · rw [if_neg hx]
      split
      · exact Iff.rfl
      · simp [List.mem_append, hx]
  | rem u =>
    have hurls : (applyUrlOp env s (UrlOp.rem u)).rtmp_urls =
        s.rtmp_urls.erase u := removeRtmpUrl_urls s u
    rw [hurls]
    simp only [keyOf, isAddOp]
    by_cases hx : x = u
    · rw [if_pos hx]
      refine iff_of_false ?_ (by simp)
      subst hx
      intro hmem
      exact ((List.Nodup.mem_erase_iff hnd).mp hmem).1 rfl
    · rw [if_neg hx]
      rw [List.Nodup.mem_erase_iff hnd]
      simp [hx]

theorem memAfter_congr (x : String) (ops : List UrlOp) :
    ∀ (p q : Prop), (p ↔ q) → (memAfter x p ops ↔ memAfter x q ops) := by
  induction ops with
  | nil => intro p q h; exact h
  | cons op rest ih =>
    intro p q h
    simp only [memAfter]
    by_cases hx : x = keyOf op
    · rw [if_pos hx, if_pos hx]
    · rw [if_neg hx, if_neg hx]
      exact ih p q h

theorem memAfter_irrel (x : String) :
    ∀ (ops : List UrlOp), (∃ o ∈ ops, keyOf o = x) →
      ∀ (p q : Prop), memAfter x p ops ↔ memAfter x q ops := by
  intro ops
  induction ops with
  | nil => intro h; exact absurd h (by simp)
  | cons op rest ih =>
    intro h p q
    simp only [memAfter]
    by_cases hx : x = keyOf op
    · rw [if_pos hx, if_pos hx]
    · rw [if_neg hx, if_neg hx]
      apply ih
      rcases h with ⟨o, ho, hk⟩
      rcases List.mem_cons.mp ho with rfl | ho'
      · exact absurd hk.symm hx
      · exact ⟨o, ho', hk⟩

theorem mem_applyUrlOps (env : String → Bool) (x : String) :
    ∀ (ops : List UrlOp) (s : Receiver), s.rtmp_urls.Nodup →
      (x ∈ (applyUrlOps env s ops).rtmp_urls ↔
        memAfter x (x ∈ s.rtmp_urls) ops) := by
  intro ops
  induction ops with
  | nil => intro s _; exact Iff.rfl
  | cons op rest ih =>
    intro s h
    have h1 := ih (applyUrlOp env s op) (applyUrlOp_nodup env s op h)
    have h2 := memAfter_congr x rest _ _ (mem_applyUrlOp env s op x h)
    exact h1.trans h2

theorem memAfter_lastWins (x : String) :
    ∀ (ops : List UrlOp) (p : Prop),
      memAfter x p (lastWins ops) ↔ memAfter x p ops := by
  intro ops
  induction ops with
  | nil => intro p; exact Iff.rfl
  | cons op rest ih =>
    intro p
    simp only [lastWins]
    split
    · next hany =>
      by_cases hx : x = keyOf op
      · have hex : ∃ o ∈ rest, keyOf o = x := by
          rcases List.any_eq_true.mp hany with ⟨o, ho, hk⟩
          exact ⟨o, ho, by rw [beq_iff_eq.mp hk, ← hx]⟩
        show memAfter x p (lastWins rest) ↔
          memAfter x (if x = keyOf op then isAddOp op = true else p) rest
        rw [if_pos hx]
        exact (ih p).trans (memAfter_irrel x rest hex p (isAddOp op = true))
      · show memAfter x p (lastWins rest) ↔
          memAfter x (if x = keyOf op then isAddOp op = true else p) rest
        rw [if_neg hx]
        exact ih p
    · simp only [memAfter]
      exact ih _

/-- C6: for every finite sequence of `add_rtmp_url` / `remove_rtmp_url`
operations applied to a state whose URL list is duplicate-free (as every
state the program constructs is), the resulting destination set is, element
for element, the set produced by replaying only the last operation per
address: duplicate adds are idempotent and removing an absent address is a
no-op. -/
theorem C6_last_op_wins (env : String → Bool) (s : Receiver) (ops : List UrlOp)
    (x : String) (hnd : s.rtmp_urls.Nodup) :
    (x ∈ (applyUrlOps env s ops).rtmp_urls ↔
     x ∈ (applyUrlOps env s (lastWins ops)).rtmp_urls) := by
  rw [mem_applyUrlOps env x ops s hnd,
    mem_applyUrlOps env x (lastWins ops) s hnd]
  exact (memAfter_lastWins x ops _).symm

/-- C6 witness: a duplicate add followed by a remove of an absent address. -/
theorem C6_last_op_wins_witness :
    ("rtmp://a/x" ∈ (applyUrlOps (fun _ => true) (initReceiver none)
        [UrlOp.add "rtmp://a/x", UrlOp.add "rtmp://a/x",
         UrlOp.rem "rtmp://b/y"]).rtmp_urls ↔
     "rtmp://a/x" ∈ (applyUrlOps (fun _ => true) (initReceiver none)
        (lastWins [UrlOp.add "rtmp://a/x", UrlOp.add "rtmp://a/x",
          UrlOp.rem "rtmp://b/y"])).rtmp_urls) :=
  C6_last_op_wins (fun _ => true) (initReceiver none)
    [UrlOp.add "rtmp://a/x", UrlOp.add "rtmp://a/x", UrlOp.rem "rtmp://b/y"]
    "rtmp://a/x" (by decide)

/-! ### Preservation of the state invariant (for C10) -/

theorem startRecorder_rinv (env : String → Bool) (s : Receiver) (u : String)
    (h : RInv s) (hu : u ∈ s.rtmp_urls) : RInv (startRecorder env s u).1 := by
  rcases startRecorder_cases env s u with hc | ⟨hmem, hc⟩
  · rw [hc]; exact h
  · rw [hc]
    obtain ⟨h1, h2, h3⟩ := h
    refine ⟨h1, ?_, ?_⟩
    · simp [List.nodup_append, h2, hmem]
    · intro w hw
      rcases List.mem_append.mp hw with hw | hw
      · exact h3 w hw
      · rw [List.mem_singleton.mp hw]; exact hu

theorem foldStart_rinv (env : String → Bool) :
    ∀ (l : List String) (acc : Receiver × List Response), RInv acc.1 →
      (∀ u ∈ l, u ∈ acc.1.rtmp_urls) →
      RInv (l.foldl (startStep env) acc).1 := by
  intro l
  induction l with
  | nil => intro acc h _; exact h
  | cons u rest ih =>
    intro acc h hsub
    rw [List.foldl_cons]
    have hurls : (startStep env acc u).1.rtmp_urls = acc.1.rtmp_urls :=
      startRecorder_urls env acc.1 u
    apply ih
    · exact startRecorder_rinv env acc.1 u h (hsub u (by simp))
    · intro w hw
      rw [hurls]
      exact hsub w (by simp [hw])

theorem startRecording_rinv (env : String → Bool) (s : Receiver) (h : RInv s) :
    RInv (startRecording env s).1 := by
  simp only [startRecording]
  split
  · exact h
  split
  · exact h
  · have hp : RInv (s.rtmp_urls.foldl (startStep env) (s, [])).1 :=
      foldStart_rinv env s.rtmp_urls (s, []) h (fun u hu => hu)
    exact ⟨hp.1, hp.2.1, hp.2.2⟩

theorem addRtmpUrl_rinv (env : String → Bool) (s : Receiver) (u : String)
    (h : RInv s) : RInv (addRtmpUrl env s u).1 := by
  simp only [addRtmpUrl]
  split
  · exact h
  · next hv =>
    have h1 : RInv { s with rtmp_urls := s.rtmp_urls ++ [pyStrip u] } := by
      refine ⟨?_, h.2.1, ?_⟩
      · simp [List.nodup_append, h.1, hv]
      · intro w hw
        exact List.mem_append.mpr (Or.inl (h.2.2 w hw))
    split
    · exact startRecorder_rinv env _ _ h1 (by simp)
    · exact h1

theorem removeRtmpUrl_rinv (s : Receiver) (u : String) (h : RInv s) :
    RInv (removeRtmpUrl s u) := by
  unfold removeRtmpUrl
  split
  · obtain ⟨h1, h2, h3⟩ := h
    refine ⟨h1.erase u, h2.erase u, ?_⟩
    intro w hw
    obtain ⟨hne, hmem⟩ := (List.Nodup.mem_erase_iff h2).mp hw
    exact (List.Nodup.mem_erase_iff h1).mpr ⟨hne, h3 w hmem⟩
  · exact h

theorem stopRecording_rinv (s : Receiver) (h : RInv s) :
    RInv (stopRecording s).1 := by
  unfold stopRecording
  split
  · exact h
  · exact ⟨h.1, List.nodup_nil, by simp⟩

theorem onEnded_rinv (s : Receiver) (t : Track) (h : RInv s) :
    RInv (onEnded s t).1 := by
  by_cases hm : t ∈ s.tracks
  · simp only [onEnded, if_pos hm]
    split
    · exact stopRecording_rinv _ ⟨h.1, h.2.1, h.2.2⟩
    · exact ⟨h.1, h.2.1, h.2.2⟩
  · simp only [onEnded, if_neg hm]
    split
    · exact stopRecording_rinv _ h
    · exact h

theorem handleCommand_rinv (env : String → Bool) (s : Receiver) (m : InMessage)
    (h : RInv s) : RInv (handleCommand env s m).1 := by
  cases m with
  | invalid raw => exact h
  | parsed a u =>
    simp only [handleCommand]
    repeat' split
    all_goals
      first
        | exact h
        | exact startRecording_rinv env s h
        | exact stopRecording_rinv s h
        | exact addRtmpUrl_rinv env s _ h
        | exact removeRtmpUrl_rinv s _ h

theorem applyROp_rinv (env : String → Bool) (s : Receiver) (op : ROp)
    (h : RInv s) : RInv (applyROp env s op) := by
  cases op with
  | msg m => exact handleCommand_rinv env s m h
  | addUrl u => exact addRtmpUrl_rinv env s u h
  | removeUrl u => exact removeRtmpUrl_rinv s u h
  | startRec => exact startRecording_rinv env s h
  | stopRec => exact stopRecording_rinv s h
  | trackAdd t => exact ⟨h.1, h.2.1, h.2.2⟩
  | trackEnd t => exact onEnded_rinv s t h

theorem initReceiver_rinv (ru : Option String) : RInv (initReceiver ru) := by
  cases ru with
  | none =>
    exact ⟨List.nodup_nil, List.nodup_nil,
      fun u hu => absurd hu (List.not_mem_nil u)⟩
  | some u =>
    refine ⟨?_, List.nodup_nil, fun w hw => absurd hw (List.not_mem_nil w)⟩
    simp only [initReceiver]
    split <;> simp

theorem applyROps_rinv (env : String → Bool) :
    ∀ (ops : List ROp) (s : Receiver), RInv s → RInv (applyROps env s ops) := by
  intro ops
  induction ops with
  | nil => intro s h; exact h
  | cons op rest ih =>
    intro s h
    exact ih (applyROp env s op) (applyROp_rinv env s op h)

/-- C10: every receiver operation (command handling, URL add/remove,
recording start/stop, track arrival and track end) preserves the invariant
that the destination URL list is duplicate-free and every key of the recorder
mapping (keys being unique, as in any dict) is a member of the URL list; in
particular the invariant holds in every state reachable from any initial
receiver by any sequence of operations. -/
theorem C10_invariant_preserved :
    (∀ (env : String → Bool) (s : Receiver) (op : ROp),
        RInv s → RInv (applyROp env s op)) ∧
    (∀ (env : String → Bool) (ru : Option String) (ops : List ROp),
        RInv (applyROps env (initReceiver ru) ops)) :=
  ⟨applyROp_rinv,
   fun env ru ops => applyROps_rinv env ops (initReceiver ru)
     (initReceiver_rinv ru)⟩

/-- C10 witness: one concrete preservation step from the empty receiver. -/
theorem C10_invariant_preserved_witness :
    RInv (applyROp (fun _ => true) (initReceiver none)
      (ROp.addUrl " rtmp://a/x ")) :=
  C10_invariant_preserved.1 (fun _ => true) (initReceiver none)
    (ROp.addUrl " rtmp://a/x ") (by decide)

end WebrtcRtmp
